import Mathlib

/-!
Shallow embedding of the meshtastic example scripts (auto_responder.py,
battery_monitor.py, temperature_alert.py, position_tracker.py,
scheduled_broadcaster.py) and proofs about their event-dispatch and
cooldown behaviour.  Timestamps, temperatures, voltages and coordinates
are modelled as rationals; Python integers as Int; Python dictionaries
with numeric defaults as total functions.  Each handler is a pure state
transformer; the send capability is modelled by a Boolean telling
whether interface.sendText returns normally or raises, and a raised
flag in the result records a propagating exception.
-/

/-- Models the test a == b on the front of two character lists:
returns true when the first list is an initial segment of the second. -/
def matchesFront : List Char → List Char → Bool
  | [], _ => true
  | _ :: _, [] => false
  | a :: as, b :: bs => a == b && matchesFront as bs

/-- Models Python substring containment over character lists: the first
list occurs contiguously somewhere in the second. -/
def hasSubList (n : List Char) : List Char → Bool
  | [] => matchesFront n []
  | b :: bs => matchesFront n (b :: bs) || hasSubList n bs

/-- Models the Python expression needle in hay on strings. -/
def strIn (needle hay : String) : Bool := hasSubList needle.data hay.data

/-- Models Python str.lower, character by character. -/
def pyLower (s : String) : String := String.mk (s.data.map Char.toLower)

/-- Models Python str.strip with no argument: removes leading and
trailing whitespace. -/
def pyStrip (s : String) : String :=
  String.mk (((s.data.dropWhile Char.isWhitespace).reverse.dropWhile
    Char.isWhitespace).reverse)

/-- Replaces the first occurrence of a pattern in a character list;
models str.format for a template holding a single substitution token. -/
def replaceFirst (pat rep : List Char) : List Char → List Char
  | [] => []
  | c :: rest =>
    if matchesFront pat (c :: rest) then rep ++ (c :: rest).drop pat.length
    else c :: replaceFirst pat rep rest

/-- Continuation byte test for UTF-8 decoding. -/
def isCont (b : Nat) : Bool := 0x80 ≤ b && b ≤ 0xBF

/-- Second byte range check for multi-byte UTF-8 sequences, with the
narrowed ranges that exclude overlong forms, surrogates and values
beyond U+10FFFF. -/
def secondByteOk (b1 b2 : Nat) : Bool :=
  if b1 = 0xE0 then 0xA0 ≤ b2 && b2 ≤ 0xBF
  else if b1 = 0xED then 0x80 ≤ b2 && b2 ≤ 0x9F
  else if b1 = 0xF0 then 0x90 ≤ b2 && b2 ≤ 0xBF
  else if b1 = 0xF4 then 0x80 ≤ b2 && b2 ≤ 0x8F
  else isCont b2

/-- The Unicode replacement character U+FFFD. -/
def replChar : Char := Char.ofNat 0xFFFD

/-- Worker for the UTF-8 decoder, structurally recursive on a fuel
argument that the wrapper sets to the byte count; every step consumes
at least one byte, so the fuel never runs out before the input. -/
def utf8DecodeAux : Nat → List Nat → List Char
  | 0, _ => []
  | _ + 1, [] => []
  | fuel + 1, b1 :: rest =>
    if b1 < 0x80 then Char.ofNat b1 :: utf8DecodeAux fuel rest
    else if b1 < 0xC2 then replChar :: utf8DecodeAux fuel rest
    else if b1 ≤ 0xDF then
      match rest with
      | [] => [replChar]
      | b2 :: rest2 =>
        if isCont b2 then
          Char.ofNat ((b1 - 0xC0) * 0x40 + (b2 - 0x80)) :: utf8DecodeAux fuel rest2
        else replChar :: utf8DecodeAux fuel rest
    else if b1 ≤ 0xEF then
      match rest with
      | [] => [replChar]
      | b2 :: rest2 =>
        if secondByteOk b1 b2 then
          match rest2 with
          | [] => [replChar]
          | b3 :: rest3 =>
            if isCont b3 then
              Char.ofNat ((b1 - 0xE0) * 0x1000 + (b2 - 0x80) * 0x40 + (b3 - 0x80)) ::
                utf8DecodeAux fuel rest3
            else replChar :: utf8DecodeAux fuel rest2
        else replChar :: utf8DecodeAux fuel rest
    else if b1 ≤ 0xF4 then
      match rest with
      | [] => [replChar]
      | b2 :: rest2 =>
        if secondByteOk b1 b2 then
          match rest2 with
          | [] => [replChar]
          | b3 :: rest3 =>
            if isCont b3 then
              match rest3 with
              | [] => [replChar]
              | b4 :: rest4 =>
                if isCont b4 then
                  Char.ofNat ((b1 - 0xF0) * 0x40000 + (b2 - 0x80) * 0x1000 +
                    (b3 - 0x80) * 0x40 + (b4 - 0x80)) :: utf8DecodeAux fuel rest4
                else replChar :: utf8DecodeAux fuel rest3
            else replChar :: utf8DecodeAux fuel rest2
        else replChar :: utf8DecodeAux fuel rest
    else replChar :: utf8DecodeAux fuel rest

/-- Models bytes.decode with utf-8 and errors replace: a total decoder
that substitutes U+FFFD for invalid bytes instead of failing. -/
def utf8DecodeReplace (l : List Nat) : List Char := utf8DecodeAux l.length l

/-- A Python numeric value as it appears in a decoded packet field:
either an int or a float.  The distinction matters because
position_tracker.py tests isinstance(value, int) before rescaling. -/
inductive PVal where
  | pint : Int → PVal
  | pfloat : ℚ → PVal
deriving DecidableEq

/-- Numeric content of a packet value. -/
def PVal.toRat : PVal → ℚ
  | .pint n => (n : ℚ)
  | .pfloat q => q

/-- Python truthiness of a numeric value: zero is falsy. -/
def PVal.truthy : PVal → Bool
  | .pint n => n ≠ 0
  | .pfloat q => q ≠ 0

/-- Models the Python expression a or b over two optional packet
fields: the left value is kept only when present and truthy. -/
def pyOr (a b : Option PVal) : Option PVal :=
  match a with
  | some v => if v.truthy then some v else b
  | none => b

/-- The deviceMetrics sub-dictionary of a telemetry packet. -/
structure DeviceMetrics where
  batteryLevel : Option Int
  voltage : Option ℚ
deriving DecidableEq

/-- The environmentMetrics sub-dictionary of a telemetry packet. -/
structure EnvMetrics where
  temperature : Option ℚ
deriving DecidableEq

/-- The telemetry sub-dictionary of a decoded packet. -/
structure TelemetryData where
  deviceMetrics : Option DeviceMetrics
  environmentMetrics : Option EnvMetrics
deriving DecidableEq

/-- The position sub-dictionary of a decoded packet. -/
structure PositionData where
  latitude : Option PVal
  longitude : Option PVal
  latitudeI : Option PVal
  longitudeI : Option PVal
  altitude : Option ℚ
  groundSpeed : Option ℚ
  groundTrack : Option ℚ
deriving DecidableEq

/-- The decoded sub-dictionary of an inbound packet. -/
structure DecodedData where
  portnum : Option String
  payload : Option (List Nat)
  telemetry : Option TelemetryData
  position : Option PositionData
deriving DecidableEq

/-- An inbound packet as the on_receive callbacks see it. -/
structure Packet where
  decoded : Option DecodedData
  fromId : Option String
deriving DecidableEq

/-- Empty-dictionary defaults used by the .get(key, default) calls. -/
def TelemetryData.empty : TelemetryData := ⟨none, none⟩

def DeviceMetrics.empty : DeviceMetrics := ⟨none, none⟩

def EnvMetrics.empty : EnvMetrics := ⟨none⟩

def PositionData.empty : PositionData := ⟨none, none, none, none, none, none, none⟩

/-- An outbound interface.sendText call: text, optional destinationId,
optional channelIndex. -/
structure SendMsg where
  text : String
  destinationId : Option String
  channelIndex : Option Nat
deriving DecidableEq

namespace Battery

/-- Configuration constants of battery_monitor.py. -/
structure Config where
  LOW_BATTERY_THRESHOLD : Int
  ALERT_COOLDOWN : ℚ

/-- The values configured in the source file. -/
def srcConfig : Config := ⟨20, 3600⟩

/-- Module state of battery_monitor.py: the per-node dictionaries
last_alert_time (get default 0) and node_batteries (get default None). -/
structure State where
  last_alert_time : String → ℚ
  node_batteries : String → Option Int

/-- Initial module state: both dictionaries empty. -/
def initState : State := ⟨fun _ => 0, fun _ => none⟩

/-- One row appended to the battery CSV log; the voltage column is
empty when voltage is absent or falsy. -/
structure LogRow where
  node_id : String
  node_name : String
  battery_percent : Int
  voltage : Option ℚ
deriving DecidableEq

/-- Result of one on_receive call: updated module state, the sendText
calls that returned, the CSV rows appended, and whether an exception
escaped the handler. -/
structure Result where
  state : State
  sent : List SendMsg
  log : List LogRow
  raised : Bool

/-- Embedding of on_receive of battery_monitor.py.  The nodeName
argument models get_node_name through the node directory of the
interface; sendOk tells whether interface.sendText returns normally.
When sendOk is false the send raises, the statement updating
last_alert_time is never reached, and the exception propagates. -/
def on_receive (cfg : Config) (nodeName : String → String) (st : State)
    (now : ℚ) (pkt : Packet) (sendOk : Bool) : Result :=
  match pkt.decoded with
  | none => ⟨st, [], [], false⟩
  | some d =>
    if d.portnum = some "TELEMETRY_APP" then
      let telemetry := d.telemetry.getD TelemetryData.empty
      let device_metrics := telemetry.deviceMetrics.getD DeviceMetrics.empty
      match device_metrics.batteryLevel with
      | none => ⟨st, [], [], false⟩
      | some battery_level =>
        let sender_id := pkt.fromId.getD "unknown"
        let sender_name := nodeName sender_id
        let loggedVoltage :=
          match device_metrics.voltage with
          | some q => if q = 0 then none else some q
          | none => none
        let row : LogRow := ⟨sender_id, sender_name, battery_level, loggedVoltage⟩
        let st1 : State :=
          { st with node_batteries := Function.update st.node_batteries sender_id (some battery_level) }
        if battery_level ≤ cfg.LOW_BATTERY_THRESHOLD then
          let last_time := st1.last_alert_time sender_id
          if cfg.ALERT_COOLDOWN ≤ now - last_time then
            if sendOk then
              ⟨{ st1 with last_alert_time := Function.update st1.last_alert_time sender_id now },
                [⟨"LOW BATTERY: " ++ sender_name ++ " at " ++ toString battery_level ++ "%",
                  none, none⟩], [row], false⟩
            else ⟨st1, [], [row], true⟩
          else ⟨st1, [], [row], false⟩
        else ⟨st1, [], [row], false⟩
    else ⟨st, [], [], false⟩

/-- Sequential processing of a list of timestamped packets, collecting
the sendText calls of each event separately; every send succeeds. -/
def run (cfg : Config) (nodeName : String → String) :
    State → List (ℚ × Packet) → State × List (List SendMsg)
  | st, [] => (st, [])
  | st, (t, p) :: rest =>
    let r := on_receive cfg nodeName st t p true
    let rec2 := run cfg nodeName r.state rest
    (rec2.1, r.sent :: rec2.2)

/-- A telemetry packet carrying a battery level, as battery_monitor.py
reads it. -/
def pkt (sender : String) (level : Int) : Packet :=
  ⟨some ⟨some "TELEMETRY_APP", none, some ⟨some ⟨some level, none⟩, none⟩, none⟩, some sender⟩

end Battery

/-- Embedding of get_battery_info of auto_responder.py: every path of
the source function returns None. -/
def get_battery_info : Option Int := none

namespace Auto

/-- Configuration constants of auto_responder.py.  RESPONSES is an
insertion-ordered dictionary, modelled as an association list. -/
structure Config where
  RESPONSES : List (String × String)
  INCLUDE_BATTERY_IN_STATUS : Bool
  RESPONSE_COOLDOWN : ℚ

/-- The values configured in the source file. -/
def srcConfig : Config :=
  ⟨[("status", "AUTO-REPLY: Node is online and operational."),
    ("help", "AUTO-REPLY: Available commands: status, help, info"),
    ("info", "AUTO-REPLY: This is an automated Meshtastic node."),
    ("ping", "AUTO-REPLY: Pong!")], true, 60⟩

/-- Module state of auto_responder.py: the per-sender dictionary
last_response_time (get default 0). -/
structure State where
  last_response_time : String → ℚ

/-- Initial module state: empty dictionary. -/
def initState : State := ⟨fun _ => 0⟩

/-- Result of one on_receive call. -/
structure Result where
  state : State
  sent : List SendMsg
  raised : Bool

/-- The response text actually sent for a matched keyword: the status
keyword would append battery info, but get_battery_info returns None,
which is falsy, so the response is unchanged on every path. -/
def respText (includeBattery : Bool) (keyword response : String) : String :=
  if pyLower keyword = "status" && includeBattery then
    match get_battery_info with
    | some battery => if battery ≠ 0 then response ++ " Battery: " ++ toString battery ++ "%" else response
    | none => response
  else response

/-- The keyword loop of on_receive: iterate the configured rules in
declared order, send the response of the first keyword contained in
the lowered message, update the cooldown entry of the sender, and
break.  A raising send skips the state update and propagates. -/
def loop (includeBattery : Bool) (st : State) (now : ℚ) (sender msgLower : String)
    (sendOk : Bool) : List (String × String) → Result
  | [] => ⟨st, [], false⟩
  | (keyword, response) :: rest =>
    if strIn (pyLower keyword) msgLower then
      let resp := respText includeBattery keyword response
      if sendOk then
        ⟨⟨Function.update st.last_response_time sender now⟩, [⟨resp, some sender, none⟩], false⟩
      else ⟨st, [], true⟩
    else loop includeBattery st now sender msgLower sendOk rest

/-- First configured rule whose lowered keyword is a substring of the
lowered message; the reference point for first-match-wins. -/
def firstMatch (msgLower : String) : List (String × String) → Option (String × String)
  | [] => none
  | (keyword, response) :: rest =>
    if strIn (pyLower keyword) msgLower then some (keyword, response)
    else firstMatch msgLower rest

/-- Embedding of on_receive of auto_responder.py. -/
def on_receive (cfg : Config) (st : State) (now : ℚ) (pkt : Packet)
    (sendOk : Bool) : Result :=
  match pkt.decoded with
  | none => ⟨st, [], false⟩
  | some d =>
    if d.portnum = some "TEXT_MESSAGE_APP" then
      let sender_id := pkt.fromId.getD "unknown"
      let message := String.mk (utf8DecodeReplace (d.payload.getD []))
      let message_lower := pyStrip (pyLower message)
      let last_time := st.last_response_time sender_id
      if now - last_time < cfg.RESPONSE_COOLDOWN then ⟨st, [], false⟩
      else loop cfg.INCLUDE_BATTERY_IN_STATUS st now sender_id message_lower sendOk cfg.RESPONSES
    else ⟨st, [], false⟩

/-- A text packet with raw payload bytes. -/
def pkt (sender : String) (payload : List Nat) : Packet :=
  ⟨some ⟨some "TEXT_MESSAGE_APP", some payload, none, none⟩, some sender⟩

end Auto

/-- Embedding of celsius_to_fahrenheit of temperature_alert.py. -/
def celsius_to_fahrenheit (celsius : ℚ) : ℚ := celsius * 9 / 5 + 32

/-- Rounds a rational to the nearest integer, ties to even; used to
model the fixed-point string formatting of the alert texts. -/
def roundHalfEven (q : ℚ) : ℤ :=
  let n := ⌊q⌋
  if q - n < 1 / 2 then n
  else if (1 : ℚ) / 2 < q - n then n + 1
  else if n % 2 = 0 then n else n + 1

/-- Pads a decimal digit string with leading zeros up to a width. -/
def padZeros (w : Nat) (s : String) : String :=
  String.mk (List.replicate (w - s.length) '0') ++ s

/-- Fixed-point decimal rendering of a rational with the given number
of fractional digits; models the format specifiers .1f and .0f. -/
def fmtFixed (prec : Nat) (q : ℚ) : String :=
  let scaled := roundHalfEven (q * ((10 : ℚ) ^ prec))
  let sign := if scaled < 0 then "-" else ""
  let m := scaled.natAbs
  if prec = 0 then sign ++ toString m
  else sign ++ toString (m / 10 ^ prec) ++ "." ++ padZeros prec (toString (m % 10 ^ prec))

namespace Temp

/-- Configuration constants of temperature_alert.py.  The thresholds
are written in Fahrenheit in the source. -/
structure Config where
  LOW_TEMP_THRESHOLD : ℚ
  HIGH_TEMP_THRESHOLD : ℚ
  ALERT_COOLDOWN : ℚ
  USE_CELSIUS : Bool

/-- The values configured in the source file. -/
def srcConfig : Config := ⟨40, 90, 1800, false⟩

/-- Module state of temperature_alert.py: a single module-level
variable last_alert_time shared by all senders, initially 0. -/
structure State where
  last_alert_time : ℚ
deriving DecidableEq

/-- Result of one on_receive call. -/
structure Result where
  state : State
  sent : List SendMsg
  raised : Bool
deriving DecidableEq

/-- Embedding of on_receive of temperature_alert.py.  The sender id is
read from the packet only for console output, and the cooldown check
uses the one global last_alert_time. -/
def on_receive (cfg : Config) (st : State) (now : ℚ) (pkt : Packet)
    (sendOk : Bool) : Result :=
  match pkt.decoded with
  | none => ⟨st, [], false⟩
  | some d =>
    if d.portnum = some "TELEMETRY_APP" then
      let telemetry := d.telemetry.getD TelemetryData.empty
      let env_metrics := telemetry.environmentMetrics.getD EnvMetrics.empty
      match env_metrics.temperature with
      | none => ⟨st, [], false⟩
      | some temp_celsius =>
        let temp := if cfg.USE_CELSIUS then temp_celsius else celsius_to_fahrenheit temp_celsius
        let unit := if cfg.USE_CELSIUS then "C" else "F"
        let time_since_alert := now - st.last_alert_time
        if cfg.ALERT_COOLDOWN ≤ time_since_alert then
          let low_threshold :=
            if cfg.USE_CELSIUS then (cfg.LOW_TEMP_THRESHOLD - 32) * 5 / 9
            else cfg.LOW_TEMP_THRESHOLD
          let high_threshold :=
            if cfg.USE_CELSIUS then (cfg.HIGH_TEMP_THRESHOLD - 32) * 5 / 9
            else cfg.HIGH_TEMP_THRESHOLD
          let alert_message : Option String :=
            if temp < low_threshold then
              some ("LOW TEMP ALERT: " ++ fmtFixed 1 temp ++ "°" ++ unit ++
                " (below " ++ fmtFixed 0 low_threshold ++ "°" ++ unit ++ ")")
            else if high_threshold < temp then
              some ("HIGH TEMP ALERT: " ++ fmtFixed 1 temp ++ "°" ++ unit ++
                " (above " ++ fmtFixed 0 high_threshold ++ "°" ++ unit ++ ")")
            else none
          match alert_message with
          | some msg =>
            if sendOk then ⟨⟨now⟩, [⟨msg, none, none⟩], false⟩
            else ⟨st, [], true⟩
          | none => ⟨st, [], false⟩
        else ⟨st, [], false⟩
    else ⟨st, [], false⟩

/-- A telemetry packet carrying an environment temperature in Celsius. -/
def pkt (sender : String) (tempCelsius : ℚ) : Packet :=
  ⟨some ⟨some "TELEMETRY_APP", none, some ⟨none, some ⟨some tempCelsius⟩⟩, none⟩, some sender⟩

end Temp

/-- Normalization applied to one coordinate by position_tracker.py:
divide by ten million only when the value is an int whose absolute
value exceeds 180; floats are never rescaled. -/
def normalizeCoord : PVal → ℚ
  | .pint n => if 180 < |n| then (n : ℚ) / 10000000 else (n : ℚ)
  | .pfloat q => q

namespace PositionT

/-- One row appended to positions.csv; empty optional columns model
the empty-string defaults of the source. -/
structure CsvRow where
  node_id : String
  node_name : String
  latitude : ℚ
  longitude : ℚ
  altitude : Option ℚ
  speed : Option ℚ
  heading : Option ℚ
deriving DecidableEq

/-- Embedding of on_receive of position_tracker.py: classify the
packet, extract each coordinate with the falsy-or chain over the
direct and fixed-point fields, drop the event when either coordinate
is missing, normalize, and append one CSV row. -/
def on_receive (nodeName : String → String) (pkt : Packet) : List CsvRow :=
  match pkt.decoded with
  | none => []
  | some d =>
    if d.portnum = some "POSITION_APP" then
      let position := d.position.getD PositionData.empty
      match pyOr position.latitude position.latitudeI,
        pyOr position.longitude position.longitudeI with
      | some latV, some lonV =>
        let lat := normalizeCoord latV
        let lon := normalizeCoord lonV
        let sender_id := pkt.fromId.getD "unknown"
        let sender_name := nodeName sender_id
        [⟨sender_id, sender_name, lat, lon, position.altitude,
          position.groundSpeed, position.groundTrack⟩]
      | _, _ => []
    else []

/-- A position packet with the four coordinate fields. -/
def pkt (sender : String) (lat lon latI lonI : Option PVal) : Packet :=
  ⟨some ⟨some "POSITION_APP", none, none, some ⟨lat, lon, latI, lonI, none, none, none⟩⟩,
    some sender⟩

end PositionT

namespace Sched

/-- Configuration constants of scheduled_broadcaster.py. -/
structure Config where
  INTERVAL_MINUTES : ℚ
  MESSAGE : String
  CHANNEL_INDEX : Nat

/-- The values configured in the source file. -/
def srcConfig : Config := ⟨60, "Automated check-in at {time}", 0⟩

/-- The broadcast interval in seconds, as computed in main. -/
def intervalSeconds (cfg : Config) : ℚ := cfg.INTERVAL_MINUTES * 60

/-- Embedding of send_scheduled_message: format the template with the
current wall-clock string and send on the configured channel with no
destination.  The send is wrapped in try-except in the source, so a
sink failure never escapes and never changes control flow. -/
def send_scheduled_message (cfg : Config) (timeStr : String) : SendMsg :=
  ⟨String.mk (replaceFirst ("{time}").data timeStr.data cfg.MESSAGE.data),
    none, some cfg.CHANNEL_INDEX⟩

/-- One iteration of the main loop, observed at the moment the elapsed
check runs: checkTime is the value of time.time() at the comparison,
doneTime the value of time.time() after send_scheduled_message
returns, which is where last_send is reset.  A sink that blocks makes
doneTime exceed checkTime by the blocked duration. -/
structure LoopCheck where
  checkTime : ℚ
  doneTime : ℚ
deriving DecidableEq

/-- The fires produced by the main loop from a given last_send value:
a check fires exactly when at least interval seconds elapsed since
last_send, and firing resets last_send to the completion time of that
send. -/
def fires (interval : ℚ) : ℚ → List LoopCheck → List LoopCheck
  | _, [] => []
  | last_send, c :: rest =>
    if interval ≤ c.checkTime - last_send then c :: fires interval c.doneTime rest
    else fires interval last_send rest

/-- The whole schedule of main: one unconditional fire at startup,
then the loop fires with last_send initialised to the completion time
of the startup send. -/
def mainFires (interval startTime startDone : ℚ) (checks : List LoopCheck) : List LoopCheck :=
  ⟨startTime, startDone⟩ :: fires interval startDone checks

/-- One broadcast message per fire. -/
def messagesOf (cfg : Config) (timeStrAt : ℚ → String) (fs : List LoopCheck) : List SendMsg :=
  fs.map fun f => send_scheduled_message cfg (timeStrAt f.checkTime)

end Sched

/-- Identity node directory: every node resolves to its raw id, the
default of get_node_name when the interface knows no names. -/
def idNodeName : String → String := fun s => s

/-- The ASCII bytes of the word help. -/
def helpBytes : List Nat := [104, 101, 108, 112]

/-- A byte list with an invalid UTF-8 byte between two ASCII letters. -/
def badBytes : List Nat := [104, 255, 105]

/-- Loop checks used as a concrete scheduler trace. -/
def exChecks : List Sched.LoopCheck := [⟨1, 1⟩, ⟨3 / 2, 3 / 2⟩, ⟨2, 2⟩]

/-- First lemmas: the keyword loop of auto_responder.py is determined
by the first matching rule when the send succeeds. -/
theorem auto_loop_true_eq (ib : Bool) (st : Auto.State) (now : ℚ) (sender msg : String)
    (rules : List (String × String)) :
    Auto.loop ib st now sender msg true rules =
      match Auto.firstMatch msg rules with
      | some (k, r) => ⟨⟨Function.update st.last_response_time sender now⟩,
          [⟨Auto.respText ib k r, some sender, none⟩], false⟩
      | none => ⟨st, [], false⟩ := by
  induction rules with
  | nil => rfl
  | cons a rest ih =>
    obtain ⟨k, r⟩ := a
    by_cases h : strIn (pyLower k) msg
    · simp [Auto.loop, Auto.firstMatch, h]
    · simp [Auto.loop, Auto.firstMatch, h, ih]

/-- When the send raises, the loop stops at the first matching rule
without updating any state. -/
theorem auto_loop_false_eq (ib : Bool) (st : Auto.State) (now : ℚ) (sender msg : String)
    (rules : List (String × String)) :
    Auto.loop ib st now sender msg false rules =
      match Auto.firstMatch msg rules with
      | some _ => ⟨st, [], true⟩
      | none => ⟨st, [], false⟩ := by
  induction rules with
  | nil => rfl
  | cons a rest ih =>
    obtain ⟨k, r⟩ := a
    by_cases h : strIn (pyLower k) msg
    · simp [Auto.loop, Auto.firstMatch, h]
    · simp [Auto.loop, Auto.firstMatch, h, ih]

/-- C5 counterexample: the claim states that any coordinate value with
absolute value above 180 is divided by ten million, regardless of
representation.  The code only rescales int values, so a float of
magnitude 2000000000 is left unchanged, not divided. -/
theorem normalize_magnitude_only_fails_on_float :
    180 < |(PVal.pfloat 2000000000).toRat| ∧
    normalizeCoord (PVal.pfloat 2000000000) ≠ (PVal.pfloat 2000000000).toRat / 10000000 := by
  constructor
  · norm_num [PVal.toRat]
  · norm_num [PVal.toRat, normalizeCoord]

/-- C5 (amended): normalization divides by ten million exactly when the
value is an int of absolute value above 180 and leaves every float and
every small int unchanged; consequently a position delivered as
fixed-point integers of magnitude above 180 and the same position
delivered as the corresponding decimal floats produce identical CSV
records. -/
theorem normalize_int_guard_agreement :
    (∀ n : ℤ, normalizeCoord (PVal.pint n) =
      if 180 < |n| then (n : ℚ) / 10000000 else (n : ℚ)) ∧
    (∀ q : ℚ, normalizeCoord (PVal.pfloat q) = q) ∧
    (∀ (nodeName : String → String) (s : String) (latN lonN : ℤ),
      180 < |latN| → 180 < |lonN| →
      PositionT.on_receive nodeName
        (PositionT.pkt s none none (some (PVal.pint latN)) (some (PVal.pint lonN))) =
      PositionT.on_receive nodeName
        (PositionT.pkt s (some (PVal.pfloat ((latN : ℚ) / 10000000)))
          (some (PVal.pfloat ((lonN : ℚ) / 10000000))) none none)) := by
  refine ⟨fun n => rfl, fun q => rfl, ?_⟩
  intro nodeName s latN lonN hlat hlon
  have hlat0 : latN ≠ 0 := by
    intro h
    rw [h] at hlat
    norm_num at hlat
  have hlon0 : lonN ≠ 0 := by
    intro h
    rw [h] at hlon
    norm_num at hlon
  have hlatq : ((latN : ℚ) / 10000000) ≠ 0 :=
    div_ne_zero (Int.cast_ne_zero.mpr hlat0) (by norm_num)
  have hlonq : ((lonN : ℚ) / 10000000) ≠ 0 :=
    div_ne_zero (Int.cast_ne_zero.mpr hlon0) (by norm_num)
  simp [PositionT.on_receive, PositionT.pkt, pyOr, PVal.truthy, normalizeCoord,
    hlat, hlon, hlat0, hlon0, hlatq, hlonq]

/-- Witness for the amended C5 statement at concrete fixed-point
coordinates. -/
theorem normalize_int_guard_agreement_witness :
    (180 < |(374220000 : ℤ)|) ∧ (180 < |(-1220840000 : ℤ)|) ∧
    PositionT.on_receive idNodeName
      (PositionT.pkt "!a" none none (some (PVal.pint 374220000))
        (some (PVal.pint (-1220840000)))) =
    PositionT.on_receive idNodeName
      (PositionT.pkt "!a" (some (PVal.pfloat ((374220000 : ℤ) / 10000000 : ℚ)))
        (some (PVal.pfloat (((-1220840000 : ℤ) : ℚ) / 10000000))) none none) := by
  refine ⟨by norm_num, by norm_num, ?_⟩
  exact normalize_int_guard_agreement.2.2 idNodeName "!a" 374220000 (-1220840000)
    (by norm_num) (by norm_num)

/-- C10: a position whose latitude (or longitude) field is present but
zero, with the corresponding fixed-point field absent, is dropped with
no CSV record, because zero is falsy in the or-chain that extracts the
coordinate. -/
theorem position_zero_coordinate_dropped
    (nodeName : String → String) (pkt : Packet) (d : DecodedData) (pos : PositionData)
    (hd : pkt.decoded = some d) (hp : d.portnum = some "POSITION_APP")
    (hpos : d.position = some pos)
    (h : ((pos.latitude = some (PVal.pint 0) ∨ pos.latitude = some (PVal.pfloat 0)) ∧
            pos.latitudeI = none) ∨
         ((pos.longitude = some (PVal.pint 0) ∨ pos.longitude = some (PVal.pfloat 0)) ∧
            pos.longitudeI = none)) :
    PositionT.on_receive nodeName pkt = [] := by
  obtain ⟨dec, fid⟩ := pkt
  simp only [Packet.mk.injEq] at hd
  rcases h with ⟨hlat, hlatI⟩ | ⟨hlon, hlonI⟩
  · rcases hlat with h0 | h0 <;>
      simp [PositionT.on_receive, hd, hp, hpos, pyOr, h0, hlatI, PVal.truthy]
  · rcases hlon with h0 | h0 <;>
      simp [PositionT.on_receive, hd, hp, hpos, pyOr, h0, hlonI, PVal.truthy]

/-- Witness for C10 at a concrete packet with latitude zero. -/
theorem position_zero_coordinate_dropped_witness :
    (PositionT.pkt "!a" (some (PVal.pint 0)) (some (PVal.pfloat (37/10))) none none).decoded =
      some ⟨some "POSITION_APP", none, none,
        some ⟨some (PVal.pint 0), some (PVal.pfloat (37/10)), none, none, none, none, none⟩⟩ ∧
    PositionT.on_receive idNodeName
      (PositionT.pkt "!a" (some (PVal.pint 0)) (some (PVal.pfloat (37/10))) none none) = [] := by
  refine ⟨rfl, ?_⟩
  exact position_zero_coordinate_dropped idNodeName _ _ _ rfl rfl rfl
    (Or.inl ⟨Or.inl rfl, rfl⟩)

/-- C6: outside the cooldown window a battery level exactly equal to
the threshold triggers an alert, and a level one unit above triggers
none; the comparison has less-or-equal semantics. -/
theorem battery_threshold_le_boundary
    (cfg : Battery.Config) (nodeName : String → String) (st : Battery.State)
    (now : ℚ) (n : String)
    (hcool : cfg.ALERT_COOLDOWN ≤ now - st.last_alert_time n) :
    (Battery.on_receive cfg nodeName st now
      (Battery.pkt n cfg.LOW_BATTERY_THRESHOLD) true).sent.length = 1 ∧
    (Battery.on_receive cfg nodeName st now
      (Battery.pkt n (cfg.LOW_BATTERY_THRESHOLD + 1)) true).sent = [] := by
  constructor
  · simp [Battery.on_receive, Battery.pkt, hcool]
  · simp [Battery.on_receive, Battery.pkt]

/-- Witness for C6 at the source configuration, a fresh state and a
wall-clock time past one cooldown. -/
theorem battery_threshold_le_boundary_witness :
    (Battery.srcConfig.ALERT_COOLDOWN ≤ 5000 - Battery.initState.last_alert_time "!a") ∧
    ((Battery.on_receive Battery.srcConfig idNodeName Battery.initState 5000
      (Battery.pkt "!a" Battery.srcConfig.LOW_BATTERY_THRESHOLD) true).sent.length = 1 ∧
    (Battery.on_receive Battery.srcConfig idNodeName Battery.initState 5000
      (Battery.pkt "!a" (Battery.srcConfig.LOW_BATTERY_THRESHOLD + 1)) true).sent = []) := by
  refine ⟨by norm_num [Battery.srcConfig, Battery.initState], ?_⟩
  exact battery_threshold_le_boundary Battery.srcConfig idNodeName Battery.initState 5000 "!a"
    (by norm_num [Battery.srcConfig, Battery.initState])

/-- C1 counterexample: with the source configuration of
temperature_alert.py, a low-temperature alert for node a at time 2000
suppresses the identical breach from a different node b only 100
seconds later, although the claim states that suppression depends only
on the cooldown state of the own node, which for b has never alerted. -/
theorem temp_cooldown_crossnode_suppression :
    (Temp.on_receive Temp.srcConfig ⟨0⟩ 2000 (Temp.pkt "!a" 0) true).sent.length = 1 ∧
    (Temp.on_receive Temp.srcConfig
      (Temp.on_receive Temp.srcConfig ⟨0⟩ 2000 (Temp.pkt "!a" 0) true).state
      2100 (Temp.pkt "!b" 0) true).sent = [] := by
  constructor
  · norm_num [Temp.on_receive, Temp.pkt, Temp.srcConfig, celsius_to_fahrenheit]
  · norm_num [Temp.on_receive, Temp.pkt, Temp.srcConfig, celsius_to_fahrenheit]

/-- C1 (amended): the temperature-alert cooldown is one global
timestamp shared by every node: the handler output never depends on
the sender id, and while the global cooldown is active every
temperature event from any node is suppressed with unchanged state. -/
theorem temp_cooldown_global
    (cfg : Temp.Config) (st : Temp.State) (now : ℚ) (pkt : Packet)
    (sendOk : Bool) (s1 s2 : Option String)
    (hsup : now - st.last_alert_time < cfg.ALERT_COOLDOWN) :
    Temp.on_receive cfg st now { pkt with fromId := s1 } sendOk =
      Temp.on_receive cfg st now { pkt with fromId := s2 } sendOk ∧
    (Temp.on_receive cfg st now pkt sendOk).sent = [] ∧
    (Temp.on_receive cfg st now pkt sendOk).state = st := by
  have hns : ¬ (cfg.ALERT_COOLDOWN ≤ now - st.last_alert_time) := not_le.mpr hsup
  obtain ⟨dec, fid⟩ := pkt
  refine ⟨rfl, ?_⟩
  cases dec with
  | none => exact ⟨rfl, rfl⟩
  | some d =>
    by_cases hpn : d.portnum = some "TELEMETRY_APP"
    · cases htemp : ((d.telemetry.getD TelemetryData.empty).environmentMetrics.getD
        EnvMetrics.empty).temperature with
      | none => simp [Temp.on_receive, hpn, htemp]
      | some t => simp [Temp.on_receive, hpn, htemp, hns]
    · simp [Temp.on_receive, hpn]

/-- Witness for the amended C1 statement: two copies of the same
suppressed packet differing only in sender behave identically. -/
theorem temp_cooldown_global_witness :
    ((2100 : ℚ) - (⟨2000⟩ : Temp.State).last_alert_time < Temp.srcConfig.ALERT_COOLDOWN) ∧
    (Temp.on_receive Temp.srcConfig ⟨2000⟩ 2100 { Temp.pkt "!b" 0 with fromId := some "!b" } true =
      Temp.on_receive Temp.srcConfig ⟨2000⟩ 2100 { Temp.pkt "!b" 0 with fromId := some "!c" } true ∧
    (Temp.on_receive Temp.srcConfig ⟨2000⟩ 2100 (Temp.pkt "!b" 0) true).sent = [] ∧
    (Temp.on_receive Temp.srcConfig ⟨2000⟩ 2100 (Temp.pkt "!b" 0) true).state = ⟨2000⟩) := by
  refine ⟨by norm_num [Temp.srcConfig], ?_⟩
  exact temp_cooldown_global Temp.srcConfig ⟨2000⟩ 2100 (Temp.pkt "!b" 0) true
    (some "!b") (some "!c") (by norm_num [Temp.srcConfig])

/-- C2 counterexample: in battery_monitor.py the sendText call comes
before the statement updating last_alert_time, so when the send raises
the timestamp keeps its old value 0 while a successful send sets it to
the event time: the two post states differ and nothing was recorded as
fired. -/
theorem send_failure_state_differs :
    (Battery.on_receive Battery.srcConfig idNodeName Battery.initState 5000
      (Battery.pkt "!a" 15) false).state.last_alert_time "!a" = 0 ∧
    (Battery.on_receive Battery.srcConfig idNodeName Battery.initState 5000
      (Battery.pkt "!a" 15) false).raised = true ∧
    (Battery.on_receive Battery.srcConfig idNodeName Battery.initState 5000
      (Battery.pkt "!a" 15) true).state.last_alert_time "!a" = 5000 := by
  refine ⟨?_, ?_, ?_⟩ <;>
    norm_num [Battery.on_receive, Battery.pkt, Battery.srcConfig, Battery.initState,
      Function.update]

/-- C2 (amended): the cooldown timestamp is written only after the
send returns: on the alerting path a raising send leaves
last_alert_time and last_response_time unchanged and lets the
exception escape, while a successful send sets the entry of the sender
to the event time. -/
theorem cooldown_timestamp_after_successful_send :
    (∀ (cfg : Battery.Config) (nodeName : String → String) (st : Battery.State)
      (now : ℚ) (n : String) (v : Int),
      v ≤ cfg.LOW_BATTERY_THRESHOLD →
      cfg.ALERT_COOLDOWN ≤ now - st.last_alert_time n →
      (Battery.on_receive cfg nodeName st now (Battery.pkt n v) false).state.last_alert_time =
        st.last_alert_time ∧
      (Battery.on_receive cfg nodeName st now (Battery.pkt n v) false).raised = true ∧
      (Battery.on_receive cfg nodeName st now (Battery.pkt n v) true).state.last_alert_time =
        Function.update st.last_alert_time n now) ∧
    (∀ (cfg : Auto.Config) (st : Auto.State) (now : ℚ) (sender : String)
      (payload : List Nat) (k r : String),
      cfg.RESPONSE_COOLDOWN ≤ now - st.last_response_time sender →
      Auto.firstMatch (pyStrip (pyLower (String.mk (utf8DecodeReplace payload))))
        cfg.RESPONSES = some (k, r) →
      (Auto.on_receive cfg st now (Auto.pkt sender payload) false).state.last_response_time =
        st.last_response_time ∧
      (Auto.on_receive cfg st now (Auto.pkt sender payload) false).raised = true ∧
      (Auto.on_receive cfg st now (Auto.pkt sender payload) true).state.last_response_time =
        Function.update st.last_response_time sender now) := by
  constructor
  · intro cfg nodeName st now n v hv hc
    refine ⟨?_, ?_, ?_⟩ <;> simp [Battery.on_receive, Battery.pkt, hv, hc]
  · intro cfg st now sender payload k r hc hm
    have hns : ¬ (now - st.last_response_time sender < cfg.RESPONSE_COOLDOWN) := not_lt.mpr hc
    refine ⟨?_, ?_, ?_⟩ <;>
      simp [Auto.on_receive, Auto.pkt, hns, auto_loop_true_eq, auto_loop_false_eq, hm]

/-- Witness for the amended C2 statement on both handlers. -/
theorem cooldown_timestamp_after_successful_send_witness :
    ((15 : Int) ≤ Battery.srcConfig.LOW_BATTERY_THRESHOLD ∧
     Battery.srcConfig.ALERT_COOLDOWN ≤ 5000 - Battery.initState.last_alert_time "!a" ∧
     (Battery.on_receive Battery.srcConfig idNodeName Battery.initState 5000
       (Battery.pkt "!a" 15) false).state.last_alert_time = Battery.initState.last_alert_time ∧
     (Battery.on_receive Battery.srcConfig idNodeName Battery.initState 5000
       (Battery.pkt "!a" 15) false).raised = true ∧
     (Battery.on_receive Battery.srcConfig idNodeName Battery.initState 5000
       (Battery.pkt "!a" 15) true).state.last_alert_time =
       Function.update Battery.initState.last_alert_time "!a" 5000) ∧
    (Auto.srcConfig.RESPONSE_COOLDOWN ≤ 100 - Auto.initState.last_response_time "!b" ∧
     Auto.firstMatch (pyStrip (pyLower (String.mk (utf8DecodeReplace helpBytes))))
       Auto.srcConfig.RESPONSES =
       some ("help", "AUTO-REPLY: Available commands: status, help, info") ∧
     (Auto.on_receive Auto.srcConfig Auto.initState 100 (Auto.pkt "!b" helpBytes)
       false).state.last_response_time = Auto.initState.last_response_time ∧
     (Auto.on_receive Auto.srcConfig Auto.initState 100 (Auto.pkt "!b" helpBytes)
       false).raised = true ∧
     (Auto.on_receive Auto.srcConfig Auto.initState 100 (Auto.pkt "!b" helpBytes)
       true).state.last_response_time =
       Function.update Auto.initState.last_response_time "!b" 100) := by
  constructor
  · have h1 : (15 : Int) ≤ Battery.srcConfig.LOW_BATTERY_THRESHOLD := by
      norm_num [Battery.srcConfig]
    have h2 : Battery.srcConfig.ALERT_COOLDOWN ≤
        5000 - Battery.initState.last_alert_time "!a" := by
      norm_num [Battery.srcConfig, Battery.initState]
    exact ⟨h1, h2, cooldown_timestamp_after_successful_send.1 Battery.srcConfig idNodeName
      Battery.initState 5000 "!a" 15 h1 h2⟩
  · have h1 : Auto.srcConfig.RESPONSE_COOLDOWN ≤
        100 - Auto.initState.last_response_time "!b" := by
      norm_num [Auto.srcConfig, Auto.initState]
    have h2 : Auto.firstMatch (pyStrip (pyLower (String.mk (utf8DecodeReplace helpBytes))))
        Auto.srcConfig.RESPONSES =
        some ("help", "AUTO-REPLY: Available commands: status, help, info") := by
      decide
    exact ⟨h1, h2, cooldown_timestamp_after_successful_send.2 Auto.srcConfig
      Auto.initState 100 "!b" helpBytes _ _ h1 h2⟩

/-- The auto responder sends at most one message per inbound packet. -/
theorem auto_sent_le_one (cfg : Auto.Config) (st : Auto.State) (now : ℚ)
    (pkt : Packet) (ok : Bool) :
    (Auto.on_receive cfg st now pkt ok).sent.length ≤ 1 := by
  obtain ⟨dec, fid⟩ := pkt
  cases dec with
  | none => simp [Auto.on_receive]
  | some d =>
    by_cases hpn : d.portnum = some "TEXT_MESSAGE_APP"
    · by_cases hc : now - st.last_response_time (fid.getD "unknown") < cfg.RESPONSE_COOLDOWN
      · simp [Auto.on_receive, hpn, hc]
      · cases ok
        · rw [show (Auto.on_receive cfg st now ⟨some d, fid⟩ false) =
            Auto.loop cfg.INCLUDE_BATTERY_IN_STATUS st now (fid.getD "unknown")
              (pyStrip (pyLower (String.mk (utf8DecodeReplace (d.payload.getD [])))))
              false cfg.RESPONSES from by simp [Auto.on_receive, hpn, hc]]
          rw [auto_loop_false_eq]
          cases Auto.firstMatch (pyStrip (pyLower (String.mk
            (utf8DecodeReplace (d.payload.getD []))))) cfg.RESPONSES <;> simp
        · rw [show (Auto.on_receive cfg st now ⟨some d, fid⟩ true) =
            Auto.loop cfg.INCLUDE_BATTERY_IN_STATUS st now (fid.getD "unknown")
              (pyStrip (pyLower (String.mk (utf8DecodeReplace (d.payload.getD [])))))
              true cfg.RESPONSES from by simp [Auto.on_receive, hpn, hc]]
          rw [auto_loop_true_eq]
          cases hm : Auto.firstMatch (pyStrip (pyLower (String.mk
            (utf8DecodeReplace (d.payload.getD []))))) cfg.RESPONSES with
          | none => simp
          | some a => obtain ⟨k, r⟩ := a; simp
    · simp [Auto.on_receive, hpn]

/-- The temperature handler sends at most one message per packet. -/
theorem temp_sent_le_one (cfg : Temp.Config) (st : Temp.State) (now : ℚ)
    (pkt : Packet) (ok : Bool) :
    (Temp.on_receive cfg st now pkt ok).sent.length ≤ 1 := by
  obtain ⟨dec, fid⟩ := pkt
  cases dec with
  | none => simp [Temp.on_receive]
  | some d =>
    by_cases hpn : d.portnum = some "TELEMETRY_APP"
    · cases htemp : ((d.telemetry.getD TelemetryData.empty).environmentMetrics.getD
        EnvMetrics.empty).temperature with
      | none => simp [Temp.on_receive, hpn, htemp]
      | some t =>
        simp only [Temp.on_receive, hpn, htemp, if_true]
        split_ifs <;> simp
    · simp [Temp.on_receive, hpn]

/-- C3: each inbound event yields at most one outbound action; for text
messages the first configured keyword rule whose lowered keyword is a
substring of the lowered message determines the single reply and later
rules are not evaluated, and for a temperature breaching both
thresholds only the low alert is emitted because the low comparison
comes first. -/
theorem at_most_one_action_first_match :
    (∀ (cfg : Auto.Config) (st : Auto.State) (now : ℚ) (pkt : Packet) (ok : Bool),
      (Auto.on_receive cfg st now pkt ok).sent.length ≤ 1) ∧
    (∀ (cfg : Auto.Config) (st : Auto.State) (now : ℚ) (sender : String)
      (payload : List Nat),
      cfg.RESPONSE_COOLDOWN ≤ now - st.last_response_time sender →
      (Auto.on_receive cfg st now (Auto.pkt sender payload) true).sent =
        (match Auto.firstMatch (pyStrip (pyLower (String.mk (utf8DecodeReplace payload))))
          cfg.RESPONSES with
        | some (k, r) => [⟨Auto.respText cfg.INCLUDE_BATTERY_IN_STATUS k r, some sender, none⟩]
        | none => [])) ∧
    (∀ (msg k r : String) (rest : List (String × String)),
      strIn (pyLower k) msg = true →
      Auto.firstMatch msg ((k, r) :: rest) = some (k, r)) ∧
    (∀ (cfg : Temp.Config) (st : Temp.State) (now : ℚ) (pkt : Packet) (ok : Bool),
      (Temp.on_receive cfg st now pkt ok).sent.length ≤ 1) ∧
    (∀ (cfg : Temp.Config) (st : Temp.State) (now : ℚ) (sender : String) (tC : ℚ),
      cfg.ALERT_COOLDOWN ≤ now - st.last_alert_time →
      (if cfg.USE_CELSIUS then tC else celsius_to_fahrenheit tC) <
        (if cfg.USE_CELSIUS then (cfg.LOW_TEMP_THRESHOLD - 32) * 5 / 9
         else cfg.LOW_TEMP_THRESHOLD) →
      (if cfg.USE_CELSIUS then (cfg.HIGH_TEMP_THRESHOLD - 32) * 5 / 9
       else cfg.HIGH_TEMP_THRESHOLD) <
        (if cfg.USE_CELSIUS then tC else celsius_to_fahrenheit tC) →
      (Temp.on_receive cfg st now (Temp.pkt sender tC) true).sent =
        [⟨"LOW TEMP ALERT: " ++
            fmtFixed 1 (if cfg.USE_CELSIUS then tC else celsius_to_fahrenheit tC) ++ "°" ++
            (if cfg.USE_CELSIUS then "C" else "F") ++ " (below " ++
            fmtFixed 0 (if cfg.USE_CELSIUS then (cfg.LOW_TEMP_THRESHOLD - 32) * 5 / 9
              else cfg.LOW_TEMP_THRESHOLD) ++ "°" ++
            (if cfg.USE_CELSIUS then "C" else "F") ++ ")", none, none⟩]) := by
  refine ⟨auto_sent_le_one, ?_, ?_, temp_sent_le_one, ?_⟩
  · intro cfg st now sender payload hc
    have hns : ¬ (now - st.last_response_time sender < cfg.RESPONSE_COOLDOWN) := not_lt.mpr hc
    cases hm : Auto.firstMatch (pyStrip (pyLower (String.mk (utf8DecodeReplace payload))))
      cfg.RESPONSES with
    | none => simp [Auto.on_receive, Auto.pkt, hns, auto_loop_true_eq, hm]
    | some a =>
      obtain ⟨k, r⟩ := a
      simp [Auto.on_receive, Auto.pkt, hns, auto_loop_true_eq, hm]
  · intro msg k r rest h
    simp [Auto.firstMatch, h]
  · intro cfg st now sender tC hc hlow hhigh
    simp [Temp.on_receive, Temp.pkt, hc, hlow]

/-- Witness for C3: the source keyword table replies to a help message
with the help response, and a configuration whose low threshold lies
above its high threshold emits only the low alert for a reading that
breaches both. -/
theorem at_most_one_action_first_match_witness :
    (Auto.srcConfig.RESPONSE_COOLDOWN ≤ 100 - Auto.initState.last_response_time "!b" ∧
     (Auto.on_receive Auto.srcConfig Auto.initState 100 (Auto.pkt "!b" helpBytes) true).sent =
       (match Auto.firstMatch (pyStrip (pyLower (String.mk (utf8DecodeReplace helpBytes))))
         Auto.srcConfig.RESPONSES with
       | some (k, r) =>
         [⟨Auto.respText Auto.srcConfig.INCLUDE_BATTERY_IN_STATUS k r, some "!b", none⟩]
       | none => [])) ∧
    (strIn (pyLower "help") "help me" = true ∧
     Auto.firstMatch "help me" [("help", "a"), ("help", "b")] = some ("help", "a")) ∧
    ((1800 : ℚ) ≤ 2000 - (⟨0⟩ : Temp.State).last_alert_time ∧
     (Temp.on_receive ⟨90, 40, 1800, false⟩ ⟨0⟩ 2000 (Temp.pkt "!a" (31 / 2)) true).sent =
       [⟨"LOW TEMP ALERT: " ++ fmtFixed 1 (celsius_to_fahrenheit (31 / 2)) ++ "°" ++ "F" ++
         " (below " ++ fmtFixed 0 (90 : ℚ) ++ "°" ++ "F" ++ ")", none, none⟩]) := by
  refine ⟨⟨?_, ?_⟩, ⟨?_, ?_⟩, ⟨?_, ?_⟩⟩
  · norm_num [Auto.srcConfig, Auto.initState]
  · exact at_most_one_action_first_match.2.1 Auto.srcConfig Auto.initState 100 "!b" helpBytes
      (by norm_num [Auto.srcConfig, Auto.initState])
  · decide
  · exact at_most_one_action_first_match.2.2.1 "help me" "help" "a" [("help", "b")] (by decide)
  · norm_num
  · have h := at_most_one_action_first_match.2.2.2.2 (⟨90, 40, 1800, false⟩ : Temp.Config)
      ⟨0⟩ 2000 "!a" (31 / 2) (by norm_num) (by norm_num [celsius_to_fahrenheit])
      (by norm_num [celsius_to_fahrenheit])
    simpa using h

/-- A battery packet below or at the threshold alerts and stamps the
cooldown entry when the elapsed time since the stored entry reaches
the cooldown. -/
theorem battery_on_receive_fires (cfg : Battery.Config) (nodeName : String → String)
    (st : Battery.State) (now : ℚ) (n : String) (v : Int)
    (hv : v ≤ cfg.LOW_BATTERY_THRESHOLD)
    (hc : cfg.ALERT_COOLDOWN ≤ now - st.last_alert_time n) :
    Battery.on_receive cfg nodeName st now (Battery.pkt n v) true =
      ⟨⟨Function.update st.last_alert_time n now,
          Function.update st.node_batteries n (some v)⟩,
        [⟨"LOW BATTERY: " ++ nodeName n ++ " at " ++ toString v ++ "%", none, none⟩],
        [⟨n, nodeName n, v, none⟩], false⟩ := by
  simp [Battery.on_receive, Battery.pkt, hv, hc]

/-- A battery packet below or at the threshold inside the cooldown
window only refreshes node_batteries and emits nothing. -/
theorem battery_on_receive_suppressed (cfg : Battery.Config) (nodeName : String → String)
    (st : Battery.State) (now : ℚ) (n : String) (v : Int) (ok : Bool)
    (hv : v ≤ cfg.LOW_BATTERY_THRESHOLD)
    (hc : now - st.last_alert_time n < cfg.ALERT_COOLDOWN) :
    Battery.on_receive cfg nodeName st now (Battery.pkt n v) ok =
      ⟨{ st with node_batteries := Function.update st.node_batteries n (some v) },
        [], [⟨n, nodeName n, v, none⟩], false⟩ := by
  simp [Battery.on_receive, Battery.pkt, hv, not_le.mpr hc]

/-- Once the cooldown entry of a node holds t1, a run of breaching
events from that node all within one cooldown window of t1 emits
nothing and leaves the entry at t1. -/
theorem battery_run_suppressed (cfg : Battery.Config) (nodeName : String → String)
    (n : String) (v : Int) (t1 : ℚ)
    (hv : v ≤ cfg.LOW_BATTERY_THRESHOLD) :
    ∀ (ts : List ℚ) (st : Battery.State), st.last_alert_time n = t1 →
      (∀ t ∈ ts, t - t1 < cfg.ALERT_COOLDOWN) →
      (Battery.run cfg nodeName st (ts.map fun t => (t, Battery.pkt n v))).2 =
        ts.map (fun _ => []) ∧
      (Battery.run cfg nodeName st (ts.map fun t => (t, Battery.pkt n v))).1.last_alert_time n = t1 := by
  intro ts
  induction ts with
  | nil => intro st h0 _; exact ⟨rfl, h0⟩
  | cons t rest ih =>
    intro st h0 hts
    have hct : t - t1 < cfg.ALERT_COOLDOWN := hts t (List.mem_cons_self t rest)
    have hstep := battery_on_receive_suppressed cfg nodeName st t n v true hv (by rw [h0]; exact hct)
    have hrest := ih ⟨st.last_alert_time, Function.update st.node_batteries n (some v)⟩ h0
      (fun u hu => hts u (List.mem_cons_of_mem t hu))
    simp only [List.map_cons, Battery.run, hstep]
    exact ⟨by simp [hrest.1], hrest.2⟩

/-- C4 counterexample: the claim quantifies over all event timestamps,
but the dictionary default for a node that never alerted is 0, so a
single threshold-triggering event at time 10 with cooldown 3600 is
suppressed: the first event of the sequence emits nothing, while the
claim says exactly the first event emits an alert. -/
theorem battery_first_event_default_epoch :
    ((15 : Int) ≤ Battery.srcConfig.LOW_BATTERY_THRESHOLD) ∧
    ((10 : ℚ) - 0 < Battery.srcConfig.ALERT_COOLDOWN) ∧
    (Battery.run Battery.srcConfig idNodeName Battery.initState
      [((10 : ℚ), Battery.pkt "!a" 15)]).2 = [[]] := by
  refine ⟨by norm_num [Battery.srcConfig], by norm_num [Battery.srcConfig], ?_⟩
  norm_num [Battery.run, Battery.on_receive, Battery.pkt, Battery.srcConfig, Battery.initState]

/-- C4 (amended): for every node and every sequence of
threshold-triggering battery events whose timestamps lie within one
cooldown window of the first, if the node has no prior alert entry
(default 0) and the first timestamp is at least one cooldown past that
default, then exactly the first event emits one broadcast alert and
stamps the cooldown entry of the node with its time, and the remaining
events emit nothing, leaving the entry at the first time. -/
theorem battery_single_alert_per_cooldown_window
    (cfg : Battery.Config) (nodeName : String → String) (n : String) (v : Int)
    (t1 : ℚ) (ts : List ℚ) (st : Battery.State)
    (hv : v ≤ cfg.LOW_BATTERY_THRESHOLD)
    (h0 : st.last_alert_time n = 0)
    (ht1 : cfg.ALERT_COOLDOWN ≤ t1)
    (hts : ∀ t ∈ ts, t - t1 < cfg.ALERT_COOLDOWN) :
    (Battery.run cfg nodeName st
      ((t1, Battery.pkt n v) :: ts.map fun t => (t, Battery.pkt n v))).2 =
      [⟨"LOW BATTERY: " ++ nodeName n ++ " at " ++ toString v ++ "%", none, none⟩] ::
        ts.map (fun _ => []) ∧
    (Battery.run cfg nodeName st
      ((t1, Battery.pkt n v) :: ts.map fun t => (t, Battery.pkt n v))).1.last_alert_time n = t1 := by
  have hfire := battery_on_receive_fires cfg nodeName st t1 n v hv (by rw [h0]; simpa using ht1)
  have hrest := battery_run_suppressed cfg nodeName n v t1 hv ts
    ⟨Function.update st.last_alert_time n t1, Function.update st.node_batteries n (some v)⟩
    (by simp [Function.update]) hts
  simp only [Battery.run, hfire]
  exact ⟨by simp [hrest.1], hrest.2⟩

/-- Witness for the amended C4 statement: three breaching events from
one node inside a single cooldown window. -/
theorem battery_single_alert_per_cooldown_window_witness :
    ((15 : Int) ≤ Battery.srcConfig.LOW_BATTERY_THRESHOLD) ∧
    (Battery.initState.last_alert_time "!a" = 0) ∧
    (Battery.srcConfig.ALERT_COOLDOWN ≤ (5000 : ℚ)) ∧
    (∀ t ∈ [(5010 : ℚ), 5020], t - 5000 < Battery.srcConfig.ALERT_COOLDOWN) ∧
    ((Battery.run Battery.srcConfig idNodeName Battery.initState
      (((5000 : ℚ), Battery.pkt "!a" 15) ::
        [(5010 : ℚ), 5020].map fun t => (t, Battery.pkt "!a" 15))).2 =
      [⟨"LOW BATTERY: " ++ idNodeName "!a" ++ " at " ++ toString (15 : Int) ++ "%",
        none, none⟩] :: [(5010 : ℚ), 5020].map (fun _ => []) ∧
    (Battery.run Battery.srcConfig idNodeName Battery.initState
      (((5000 : ℚ), Battery.pkt "!a" 15) ::
        [(5010 : ℚ), 5020].map fun t => (t, Battery.pkt "!a" 15))).1.last_alert_time "!a" = 5000) := by
  have h1 : (15 : Int) ≤ Battery.srcConfig.LOW_BATTERY_THRESHOLD := by
    norm_num [Battery.srcConfig]
  have h2 : Battery.initState.last_alert_time "!a" = 0 := rfl
  have h3 : Battery.srcConfig.ALERT_COOLDOWN ≤ (5000 : ℚ) := by norm_num [Battery.srcConfig]
  have h4 : ∀ t ∈ [(5010 : ℚ), 5020], t - 5000 < Battery.srcConfig.ALERT_COOLDOWN := by
    intro t ht
    simp only [List.mem_cons, List.not_mem_nil, or_false] at ht
    rcases ht with h | h <;> rw [h] <;> norm_num [Battery.srcConfig]
  exact ⟨h1, h2, h3, h4, battery_single_alert_per_cooldown_window Battery.srcConfig idNodeName
    "!a" 15 5000 [5010, 5020] Battery.initState h1 h2 h3 h4⟩

/-- C7: a battery telemetry event always refreshes node_batteries for
its sender, alert or not; a suppressed battery event (non-breaching
level or active cooldown) leaves last_alert_time unchanged for every
node; and a suppressed or unmatched text message leaves
last_response_time unchanged for every sender. -/
theorem battery_frame_effects :
    (∀ (cfg : Battery.Config) (nodeName : String → String) (st : Battery.State)
      (now : ℚ) (pkt : Packet) (d : DecodedData) (v : Int) (ok : Bool),
      pkt.decoded = some d → d.portnum = some "TELEMETRY_APP" →
      ((d.telemetry.getD TelemetryData.empty).deviceMetrics.getD
        DeviceMetrics.empty).batteryLevel = some v →
      (Battery.on_receive cfg nodeName st now pkt ok).state.node_batteries
        (pkt.fromId.getD "unknown") = some v) ∧
    (∀ (cfg : Battery.Config) (nodeName : String → String) (st : Battery.State)
      (now : ℚ) (pkt : Packet) (d : DecodedData) (v : Int) (ok : Bool),
      pkt.decoded = some d → d.portnum = some "TELEMETRY_APP" →
      ((d.telemetry.getD TelemetryData.empty).deviceMetrics.getD
        DeviceMetrics.empty).batteryLevel = some v →
      (cfg.LOW_BATTERY_THRESHOLD < v ∨
        now - st.last_alert_time (pkt.fromId.getD "unknown") < cfg.ALERT_COOLDOWN) →
      (Battery.on_receive cfg nodeName st now pkt ok).state.last_alert_time =
        st.last_alert_time) ∧
    (∀ (cfg : Auto.Config) (st : Auto.State) (now : ℚ) (pkt : Packet)
      (d : DecodedData) (ok : Bool),
      pkt.decoded = some d → d.portnum = some "TEXT_MESSAGE_APP" →
      (now - st.last_response_time (pkt.fromId.getD "unknown") < cfg.RESPONSE_COOLDOWN ∨
        Auto.firstMatch (pyStrip (pyLower (String.mk (utf8DecodeReplace (d.payload.getD [])))))
          cfg.RESPONSES = none) →
      (Auto.on_receive cfg st now pkt ok).state.last_response_time =
        st.last_response_time) := by
  refine ⟨?_, ?_, ?_⟩
  · intro cfg nodeName st now pkt d v ok hd hpn hbl
    obtain ⟨dec, fid⟩ := pkt
    simp only [Packet.mk.injEq] at hd
    subst hd
    simp only [Battery.on_receive, hpn, hbl, if_true]
    split_ifs <;> cases ok <;> simp [Function.update]
  · intro cfg nodeName st now pkt d v ok hd hpn hbl hsup
    obtain ⟨dec, fid⟩ := pkt
    simp only [Packet.mk.injEq] at hd
    subst hd
    rcases hsup with h | h
    · simp [Battery.on_receive, hpn, hbl, not_le.mpr h]
    · by_cases hv : v ≤ cfg.LOW_BATTERY_THRESHOLD
      · simp [Battery.on_receive, hpn, hbl, hv, not_le.mpr h]
      · simp [Battery.on_receive, hpn, hbl, hv]
  · intro cfg st now pkt d ok hd hpn hsup
    obtain ⟨dec, fid⟩ := pkt
    simp only [Packet.mk.injEq] at hd
    subst hd
    rcases hsup with h | h
    · simp [Auto.on_receive, hpn, h]
    · by_cases hc : now - st.last_response_time (fid.getD "unknown") < cfg.RESPONSE_COOLDOWN
      · simp [Auto.on_receive, hpn, hc]
      · cases ok <;>
          simp [Auto.on_receive, hpn, hc, auto_loop_true_eq, auto_loop_false_eq, h]

/-- Witness for C7 at concrete suppressed events. -/
theorem battery_frame_effects_witness :
    ((Battery.pkt "!a" 55).decoded = some ⟨some "TELEMETRY_APP", none,
        some ⟨some ⟨some 55, none⟩, none⟩, none⟩ ∧
     (Battery.on_receive Battery.srcConfig idNodeName Battery.initState 5000
        (Battery.pkt "!a" 55) true).state.node_batteries "!a" = some 55) ∧
    (Battery.srcConfig.LOW_BATTERY_THRESHOLD < (55 : Int) ∧
     (Battery.on_receive Battery.srcConfig idNodeName Battery.initState 5000
        (Battery.pkt "!a" 55) true).state.last_alert_time =
       Battery.initState.last_alert_time) ∧
    (Auto.firstMatch (pyStrip (pyLower (String.mk (utf8DecodeReplace [122]))))
        Auto.srcConfig.RESPONSES = none ∧
     (Auto.on_receive Auto.srcConfig Auto.initState 100 (Auto.pkt "!b" [122])
        true).state.last_response_time = Auto.initState.last_response_time) := by
  have hm : Auto.firstMatch (pyStrip (pyLower (String.mk (utf8DecodeReplace [122]))))
      Auto.srcConfig.RESPONSES = none := by decide
  refine ⟨⟨rfl, ?_⟩, ⟨by norm_num [Battery.srcConfig], ?_⟩, ⟨hm, ?_⟩⟩
  · exact battery_frame_effects.1 Battery.srcConfig idNodeName Battery.initState 5000
      (Battery.pkt "!a" 55) _ 55 true rfl rfl rfl
  · exact battery_frame_effects.2.1 Battery.srcConfig idNodeName Battery.initState 5000
      (Battery.pkt "!a" 55) _ 55 true rfl rfl rfl
      (Or.inl (by norm_num [Battery.srcConfig]))
  · exact battery_frame_effects.2.2 Auto.srcConfig Auto.initState 100
      (Auto.pkt "!b" [122]) _ true rfl rfl (Or.inr hm)

/-- C8: every handler is a total function of the packet and, on a
packet with no decoded section, an unrecognized port, a missing metric
value or missing coordinates, returns its state unchanged with no
outbound action and no escaping exception; text payload bytes are
decoded with U+FFFD replacement instead of failing. -/
theorem handlers_total_on_malformed_input :
    (∀ (cfg : Battery.Config) (nodeName : String → String) (st : Battery.State)
      (now : ℚ) (fid : Option String) (ok : Bool),
      Battery.on_receive cfg nodeName st now ⟨none, fid⟩ ok = ⟨st, [], [], false⟩) ∧
    (∀ (cfg : Auto.Config) (st : Auto.State) (now : ℚ) (fid : Option String) (ok : Bool),
      Auto.on_receive cfg st now ⟨none, fid⟩ ok = ⟨st, [], false⟩) ∧
    (∀ (cfg : Temp.Config) (st : Temp.State) (now : ℚ) (fid : Option String) (ok : Bool),
      Temp.on_receive cfg st now ⟨none, fid⟩ ok = ⟨st, [], false⟩) ∧
    (∀ (nodeName : String → String) (fid : Option String),
      PositionT.on_receive nodeName ⟨none, fid⟩ = []) ∧
    (∀ (cfg : Battery.Config) (nodeName : String → String) (st : Battery.State)
      (now : ℚ) (d : DecodedData) (fid : Option String) (ok : Bool),
      d.portnum ≠ some "TELEMETRY_APP" →
      Battery.on_receive cfg nodeName st now ⟨some d, fid⟩ ok = ⟨st, [], [], false⟩) ∧
    (∀ (cfg : Auto.Config) (st : Auto.State) (now : ℚ) (d : DecodedData)
      (fid : Option String) (ok : Bool),
      d.portnum ≠ some "TEXT_MESSAGE_APP" →
      Auto.on_receive cfg st now ⟨some d, fid⟩ ok = ⟨st, [], false⟩) ∧
    (∀ (cfg : Temp.Config) (st : Temp.State) (now : ℚ) (d : DecodedData)
      (fid : Option String) (ok : Bool),
      d.portnum ≠ some "TELEMETRY_APP" →
      Temp.on_receive cfg st now ⟨some d, fid⟩ ok = ⟨st, [], false⟩) ∧
    (∀ (nodeName : String → String) (d : DecodedData) (fid : Option String),
      d.portnum ≠ some "POSITION_APP" →
      PositionT.on_receive nodeName ⟨some d, fid⟩ = []) ∧
    (∀ (cfg : Battery.Config) (nodeName : String → String) (st : Battery.State)
      (now : ℚ) (d : DecodedData) (fid : Option String) (ok : Bool),
      d.portnum = some "TELEMETRY_APP" →
      ((d.telemetry.getD TelemetryData.empty).deviceMetrics.getD
        DeviceMetrics.empty).batteryLevel = none →
      Battery.on_receive cfg nodeName st now ⟨some d, fid⟩ ok = ⟨st, [], [], false⟩) ∧
    (∀ (cfg : Temp.Config) (st : Temp.State) (now : ℚ) (d : DecodedData)
      (fid : Option String) (ok : Bool),
      d.portnum = some "TELEMETRY_APP" →
      ((d.telemetry.getD TelemetryData.empty).environmentMetrics.getD
        EnvMetrics.empty).temperature = none →
      Temp.on_receive cfg st now ⟨some d, fid⟩ ok = ⟨st, [], false⟩) ∧
    (∀ (nodeName : String → String) (d : DecodedData) (fid : Option String),
      d.portnum = some "POSITION_APP" →
      (pyOr (d.position.getD PositionData.empty).latitude
          (d.position.getD PositionData.empty).latitudeI = none ∨
       pyOr (d.position.getD PositionData.empty).longitude
          (d.position.getD PositionData.empty).longitudeI = none) →
      PositionT.on_receive nodeName ⟨some d, fid⟩ = []) ∧
    (utf8DecodeReplace badBytes = [Char.ofNat 104, replChar, Char.ofNat 105]) ∧
    ((Auto.on_receive Auto.srcConfig Auto.initState 100 (Auto.pkt "!a" badBytes)
        true).raised = false ∧
     (Auto.on_receive Auto.srcConfig Auto.initState 100 (Auto.pkt "!a" badBytes)
        true).sent = []) := by
  refine ⟨fun _ _ _ _ _ _ => rfl, fun _ _ _ _ _ => rfl, fun _ _ _ _ _ => rfl,
    fun _ _ => rfl, ?_, ?_, ?_, ?_, ?_, ?_, ?_, by decide, ?_⟩
  · intro cfg nodeName st now d fid ok h
    simp [Battery.on_receive, h]
  · intro cfg st now d fid ok h
    simp [Auto.on_receive, h]
  · intro cfg st now d fid ok h
    simp [Temp.on_receive, h]
  · intro nodeName d fid h
    simp [PositionT.on_receive, h]
  · intro cfg nodeName st now d fid ok hpn hbl
    simp [Battery.on_receive, hpn, hbl]
  · intro cfg st now d fid ok hpn htemp
    simp [Temp.on_receive, hpn, htemp]
  · intro nodeName d fid hpn h
    rcases h with h | h
    · simp [PositionT.on_receive, hpn, h]
    · simp only [PositionT.on_receive, hpn, if_true, h]
      cases pyOr (d.position.getD PositionData.empty).latitude
        (d.position.getD PositionData.empty).latitudeI <;> simp
  · have hm : Auto.firstMatch (pyStrip (pyLower (String.mk (utf8DecodeReplace badBytes))))
        Auto.srcConfig.RESPONSES = none := by decide
    have hns : ¬ ((100 : ℚ) - Auto.initState.last_response_time "!a" <
        Auto.srcConfig.RESPONSE_COOLDOWN) := by
      norm_num [Auto.initState, Auto.srcConfig]
    constructor
    · simp [Auto.on_receive, Auto.pkt, hns, auto_loop_true_eq, hm]
    · simp [Auto.on_receive, Auto.pkt, hns, auto_loop_true_eq, hm]

/-- Witness for C8 at concrete malformed packets. -/
theorem handlers_total_on_malformed_input_witness :
    ((⟨some "ADMIN_APP", none, none, none⟩ : DecodedData).portnum ≠ some "TELEMETRY_APP" ∧
     Battery.on_receive Battery.srcConfig idNodeName Battery.initState 5000
       ⟨some ⟨some "ADMIN_APP", none, none, none⟩, some "!a"⟩ true =
       ⟨Battery.initState, [], [], false⟩) ∧
    ((⟨some "TELEMETRY_APP", none, some ⟨none, none⟩, none⟩ : DecodedData).portnum =
        some "TELEMETRY_APP" ∧
     ((((⟨some "TELEMETRY_APP", none, some ⟨none, none⟩, none⟩ :
        DecodedData).telemetry.getD TelemetryData.empty).deviceMetrics.getD
        DeviceMetrics.empty).batteryLevel = none) ∧
     Battery.on_receive Battery.srcConfig idNodeName Battery.initState 5000
       ⟨some ⟨some "TELEMETRY_APP", none, some ⟨none, none⟩, none⟩, some "!a"⟩ true =
       ⟨Battery.initState, [], [], false⟩) ∧
    ((⟨some "POSITION_APP", none, none, some PositionData.empty⟩ : DecodedData).portnum =
        some "POSITION_APP" ∧
     PositionT.on_receive idNodeName
       ⟨some ⟨some "POSITION_APP", none, none, some PositionData.empty⟩, some "!a"⟩ = []) := by
  refine ⟨⟨by decide, ?_⟩, ⟨rfl, rfl, ?_⟩, ⟨rfl, ?_⟩⟩
  · exact handlers_total_on_malformed_input.2.2.2.2.1 Battery.srcConfig idNodeName
      Battery.initState 5000 ⟨some "ADMIN_APP", none, none, none⟩ (some "!a") true (by decide)
  · exact handlers_total_on_malformed_input.2.2.2.2.2.2.2.2.1 Battery.srcConfig idNodeName
      Battery.initState 5000 ⟨some "TELEMETRY_APP", none, some ⟨none, none⟩, none⟩
      (some "!a") true rfl rfl
  · exact handlers_total_on_malformed_input.2.2.2.2.2.2.2.2.2.2.1 idNodeName
      ⟨some "POSITION_APP", none, none, some PositionData.empty⟩ (some "!a") rfl
      (Or.inl rfl)

/-- The first fire produced from last_send value s happens at a check
at least one interval after s. -/
theorem sched_fires_head_ge (interval : ℚ) :
    ∀ (cs : List Sched.LoopCheck) (s : ℚ) (f : Sched.LoopCheck),
      (Sched.fires interval s cs).head? = some f → s + interval ≤ f.checkTime := by
  intro cs
  induction cs with
  | nil => intro s f h; simp [Sched.fires] at h
  | cons c rest ih =>
    intro s f h
    by_cases hc : interval ≤ c.checkTime - s
    · simp only [Sched.fires, if_pos hc, List.head?_cons, Option.some.injEq] at h
      subst h
      linarith
    · simp only [Sched.fires, if_neg hc] at h
      exact ih s f h

/-- Every element of the fire list is one of the loop checks. -/
theorem sched_fires_mem (interval : ℚ) :
    ∀ (cs : List Sched.LoopCheck) (s : ℚ) (f : Sched.LoopCheck),
      f ∈ Sched.fires interval s cs → f ∈ cs := by
  intro cs
  induction cs with
  | nil => intro s f h; simp [Sched.fires] at h
  | cons c rest ih =>
    intro s f h
    by_cases hc : interval ≤ c.checkTime - s
    · simp only [Sched.fires, if_pos hc, List.mem_cons] at h
      rcases h with h | h
      · subst h; exact List.mem_cons_self f rest
      · exact List.mem_cons_of_mem c (ih c.doneTime f h)
    · simp only [Sched.fires, if_neg hc] at h
      exact List.mem_cons_of_mem c (ih s f h)

/-- Consecutive fires are separated by at least one interval measured
from the completion of the earlier send to the check of the later. -/
theorem sched_fires_chain_done (interval : ℚ) :
    ∀ (cs : List Sched.LoopCheck) (s : ℚ),
      List.Chain' (fun a b => a.doneTime + interval ≤ b.checkTime)
        (Sched.fires interval s cs) := by
  intro cs
  induction cs with
  | nil => intro s; simp [Sched.fires]
  | cons c rest ih =>
    intro s
    by_cases hc : interval ≤ c.checkTime - s
    · simp only [Sched.fires, if_pos hc]
      rw [List.chain'_cons']
      exact ⟨fun b hb => sched_fires_head_ge interval rest c.doneTime b
        (Option.mem_def.mp hb), ih c.doneTime⟩
    · simp only [Sched.fires, if_neg hc]
      exact ih s

/-- When every send completes no earlier than its check, consecutive
fires are at least one interval apart in check time as well: the loop
never fires twice inside one interval. -/
theorem sched_fires_chain_check (interval : ℚ) :
    ∀ (cs : List Sched.LoopCheck), (∀ c ∈ cs, c.checkTime ≤ c.doneTime) →
      ∀ (s : ℚ),
      List.Chain' (fun a b => a.checkTime + interval ≤ b.checkTime)
        (Sched.fires interval s cs) := by
  intro cs
  induction cs with
  | nil => intro _ s; simp [Sched.fires]
  | cons c rest ih =>
    intro hcs s
    have hrest : ∀ x ∈ rest, x.checkTime ≤ x.doneTime :=
      fun x hx => hcs x (List.mem_cons_of_mem c hx)
    by_cases hc : interval ≤ c.checkTime - s
    · simp only [Sched.fires, if_pos hc]
      rw [List.chain'_cons']
      refine ⟨fun b hb => ?_, ih hrest c.doneTime⟩
      have h1 := sched_fires_head_ge interval rest c.doneTime b (Option.mem_def.mp hb)
      have h2 := hcs c (List.mem_cons_self c rest)
      linarith
    · simp only [Sched.fires, if_neg hc]
      exact ih hrest s

/-- C9: the scheduler fires once unconditionally at startup; a check
fires exactly when at least one interval elapsed since last_send, and
a fire resets last_send to the completion time of that send, so a long
block produces one fire on resume and no catch-up; consecutive fires
are at least one interval apart, each fire yields exactly one message,
and every message is a broadcast with no destination on the configured
channel. -/
theorem scheduler_fire_discipline
    (cfg : Sched.Config) (timeStrAt : ℚ → String)
    (startTime startDone : ℚ) (checks : List Sched.LoopCheck)
    (hstart : startTime ≤ startDone)
    (hch : ∀ c ∈ checks, c.checkTime ≤ c.doneTime) :
    (Sched.mainFires (Sched.intervalSeconds cfg) startTime startDone checks).head? =
      some ⟨startTime, startDone⟩ ∧
    List.Chain' (fun a b => a.doneTime + Sched.intervalSeconds cfg ≤ b.checkTime)
      (Sched.mainFires (Sched.intervalSeconds cfg) startTime startDone checks) ∧
    List.Chain' (fun a b => a.checkTime + Sched.intervalSeconds cfg ≤ b.checkTime)
      (Sched.mainFires (Sched.intervalSeconds cfg) startTime startDone checks) ∧
    (∀ (s : ℚ) (c : Sched.LoopCheck) (rest : List Sched.LoopCheck),
      Sched.fires (Sched.intervalSeconds cfg) s (c :: rest) =
        if Sched.intervalSeconds cfg ≤ c.checkTime - s then
          c :: Sched.fires (Sched.intervalSeconds cfg) c.doneTime rest
        else Sched.fires (Sched.intervalSeconds cfg) s rest) ∧
    (Sched.messagesOf cfg timeStrAt
        (Sched.mainFires (Sched.intervalSeconds cfg) startTime startDone checks)).length =
      (Sched.mainFires (Sched.intervalSeconds cfg) startTime startDone checks).length ∧
    (∀ m ∈ Sched.messagesOf cfg timeStrAt
        (Sched.mainFires (Sched.intervalSeconds cfg) startTime startDone checks),
      m.destinationId = none ∧ m.channelIndex = some cfg.CHANNEL_INDEX) := by
  refine ⟨rfl, ?_, ?_, fun s c rest => rfl, by simp [Sched.messagesOf], ?_⟩
  · rw [Sched.mainFires, List.chain'_cons']
    exact ⟨fun b hb => sched_fires_head_ge (Sched.intervalSeconds cfg) checks startDone b
      (Option.mem_def.mp hb), sched_fires_chain_done (Sched.intervalSeconds cfg) checks startDone⟩
  · rw [Sched.mainFires, List.chain'_cons']
    refine ⟨fun b hb => ?_, sched_fires_chain_check (Sched.intervalSeconds cfg) checks hch startDone⟩
    have h1 := sched_fires_head_ge (Sched.intervalSeconds cfg) checks startDone b
      (Option.mem_def.mp hb)
    simp only []
    linarith
  · intro m hm
    simp only [Sched.messagesOf, List.mem_map] at hm
    obtain ⟨f, _, hf⟩ := hm
    subst hf
    exact ⟨rfl, rfl⟩

/-- Witness for C9 with a one-second interval, startup at time zero
and three loop checks. -/
theorem scheduler_fire_discipline_witness :
    ((0 : ℚ) ≤ 0) ∧ (∀ c ∈ exChecks, c.checkTime ≤ c.doneTime) ∧
    ((Sched.mainFires (Sched.intervalSeconds ⟨1 / 60, "Automated check-in at {time}", 0⟩)
        0 0 exChecks).head? = some ⟨0, 0⟩ ∧
    List.Chain' (fun a b =>
        a.doneTime + Sched.intervalSeconds ⟨1 / 60, "Automated check-in at {time}", 0⟩ ≤
          b.checkTime)
      (Sched.mainFires (Sched.intervalSeconds ⟨1 / 60, "Automated check-in at {time}", 0⟩)
        0 0 exChecks) ∧
    List.Chain' (fun a b =>
        a.checkTime + Sched.intervalSeconds ⟨1 / 60, "Automated check-in at {time}", 0⟩ ≤
          b.checkTime)
      (Sched.mainFires (Sched.intervalSeconds ⟨1 / 60, "Automated check-in at {time}", 0⟩)
        0 0 exChecks) ∧
    (∀ (s : ℚ) (c : Sched.LoopCheck) (rest : List Sched.LoopCheck),
      Sched.fires (Sched.intervalSeconds ⟨1 / 60, "Automated check-in at {time}", 0⟩) s (c :: rest) =
        if Sched.intervalSeconds ⟨1 / 60, "Automated check-in at {time}", 0⟩ ≤ c.checkTime - s then
          c :: Sched.fires (Sched.intervalSeconds ⟨1 / 60, "Automated check-in at {time}", 0⟩)
            c.doneTime rest
        else Sched.fires (Sched.intervalSeconds ⟨1 / 60, "Automated check-in at {time}", 0⟩) s rest) ∧
    (Sched.messagesOf ⟨1 / 60, "Automated check-in at {time}", 0⟩ (fun _ => "00:00")
        (Sched.mainFires (Sched.intervalSeconds ⟨1 / 60, "Automated check-in at {time}", 0⟩)
          0 0 exChecks)).length =
      (Sched.mainFires (Sched.intervalSeconds ⟨1 / 60, "Automated check-in at {time}", 0⟩)
        0 0 exChecks).length ∧
    (∀ m ∈ Sched.messagesOf ⟨1 / 60, "Automated check-in at {time}", 0⟩ (fun _ => "00:00")
        (Sched.mainFires (Sched.intervalSeconds ⟨1 / 60, "Automated check-in at {time}", 0⟩)
          0 0 exChecks),
      m.destinationId = none ∧
      m.channelIndex = some (⟨1 / 60, "Automated check-in at {time}", 0⟩ : Sched.Config).CHANNEL_INDEX)) := by
  have h1 : (0 : ℚ) ≤ 0 := le_refl 0
  have h2 : ∀ c ∈ exChecks, c.checkTime ≤ c.doneTime := by
    intro c hc
    simp only [exChecks, List.mem_cons, List.not_mem_nil, or_false] at hc
    rcases hc with h | h | h <;> subst h <;> norm_num
  exact ⟨h1, h2, scheduler_fire_discipline ⟨1 / 60, "Automated check-in at {time}", 0⟩
    (fun _ => "00:00") 0 0 exChecks h1 h2⟩
